import Mathlib

set_option maxRecDepth 8192

/-!
Shallow embedding of the session-based authentication layer of the
movie-library repository: the session signer and cookie middleware
(src/routes/authRoutes.js), the credential hashing and verification code
(src/models/User.js and the inline PBKDF2 code in src/routes/authRoutes.js),
the authorization guards (src/middleware/auth.js), and the admin user
listing (GET /users in src/routes/authRoutes.js).

Node library primitives are embedded as follows: buffers are lists of byte
values; Buffer.from(s, 'hex') is `hexDecode` (decoding stops at the first
invalid pair, a trailing odd character is dropped); crypto.timingSafeEqual
is `timingSafeEqual`, which raises a RangeError when the two buffers differ
in length, exactly as the Node primitive does.  The HMAC-SHA256 and
PBKDF2 digests themselves are external library code, so they appear as
function parameters (`sign`, and the `f256` / `f512` digest parameters,
standing for p s => pbkdf2Sync(p, s, 10000, 64, alg).toString('hex')); all
repository logic around them is embedded faithfully.
-/

namespace MovieLib

/-- Exceptions thrown by the embedded Node primitives. -/
inductive JsError where
  | typeError
  | rangeError
deriving DecidableEq, Repr

/-- Value of a single hexadecimal digit, as accepted by Buffer.from(-, 'hex'). -/
def hexVal (c : Char) : Option Nat :=
  if '0' ≤ c ∧ c ≤ '9' then some (c.toNat - '0'.toNat)
  else if 'a' ≤ c ∧ c ≤ 'f' then some (c.toNat - 'a'.toNat + 10)
  else if 'A' ≤ c ∧ c ≤ 'F' then some (c.toNat - 'A'.toNat + 10)
  else none

/-- Buffer.from(s, 'hex') on the character list: decode pairs of hex digits,
stopping at the first invalid pair; a trailing lone character is dropped. -/
def hexDecodeAux : List Char → List Nat
  | c1 :: c2 :: rest =>
    match hexVal c1, hexVal c2 with
    | some h, some l => (16 * h + l) :: hexDecodeAux rest
    | _, _ => []
  | _ => []

/-- Buffer.from(s, 'hex'). -/
def hexDecode (s : String) : List Nat := hexDecodeAux s.data

/-- crypto.timingSafeEqual(a, b): throws ERR_CRYPTO_TIMING_SAFE_EQUAL_LENGTH
(a RangeError) when the buffers have different byte lengths, otherwise
returns whether they are equal. -/
def timingSafeEqual (a b : List Nat) : Except JsError Bool :=
  if a.length = b.length then .ok (decide (a = b)) else .error .rangeError

/-- JavaScript truthiness of an optional string field: undefined and the
empty string are falsy. -/
def jsTruthy (o : Option String) : Bool :=
  match o with
  | none => false
  | some s => decide (s ≠ "")

/-- The whitespace class of the \s regex escape (ASCII part). -/
def isJsSpace (c : Char) : Bool :=
  c = ' ' || c = '\t' || c = '\n' || c = '\r' || c = '\x0b' || c = '\x0c'

/-- String.prototype.trim(). -/
def jsTrim (s : String) : String :=
  String.mk (((s.data.dropWhile isJsSpace).reverse.dropWhile isJsSpace).reverse)

/-- String.prototype.toLowerCase() (ASCII part, as used on emails). -/
def jsLower (s : String) : String :=
  String.mk (s.data.map Char.toLower)

/-- String.prototype.split(sep) for a one-character separator, on character
lists: "".split(sep) is [""], separators at the ends produce empty pieces. -/
def splitOnChar (sep : Char) : List Char → List (List Char)
  | [] => [[]]
  | c :: rest =>
    let r := splitOnChar sep rest
    if c = sep then [] :: r
    else
      match r with
      | [] => [[c]]
      | h :: t => (c :: h) :: t

/-- String.prototype.split(sep) for a one-character separator. -/
def jsSplit (sep : Char) (s : String) : List String :=
  (splitOnChar sep s.data).map String.mk

/-- Bool test that `pat` is a prefix of `s` (String.prototype.startsWith). -/
def hasPrefixChars : List Char → List Char → Bool
  | [], _ => true
  | _ :: _, [] => false
  | a :: as, b :: bs => a == b && hasPrefixChars as bs

/-- req.path.startsWith('/api/'). -/
def pathStartsWithApi (path : String) : Bool :=
  hasPrefixChars "/api/".data path.data

/-- `${s.charAt(0).toUpperCase()}${s.slice(1)}` (ASCII part). -/
def capitalizeFirst (s : String) : String :=
  match s.data with
  | [] => ""
  | c :: cs => String.mk (c.toUpper :: cs)

/-! ## HTTP responses

A response is the observable outcome of a handler: the status code together
with the JSON `error` field, the JSON `message` field, the JSON `user`
object (id, username, role), or a redirect Location.  Fields that a given
response does not set are `none`. -/

structure HttpResponse where
  status : Nat
  error : Option String
  message : Option String
  user : Option (String × String × String)
  location : Option String
deriving DecidableEq, Repr

/-- res.status(st).json({ error: msg }). -/
def jsonError (st : Nat) (msg : String) : HttpResponse :=
  ⟨st, some msg, none, none, none⟩

/-- res.redirect(loc) (default status 302). -/
def redirectResp (loc : String) : HttpResponse :=
  ⟨302, none, none, none, some loc⟩

/-- res.status(st).send(body) with a plain-text body. -/
def plainResp (st : Nat) (body : String) : HttpResponse :=
  ⟨st, none, some body, none, none⟩

/-! ## Session signer and session store (src/routes/authRoutes.js) -/

/-- SESSION_MAX_AGE default (24 hours in milliseconds). -/
def SESSION_MAX_AGE : Nat := 86400000

/-- verifySessionId(sessionId, signature): recompute the HMAC hex digest
(the `sign` parameter embeds signSessionId, i.e. HMAC-SHA256 with the
server secret, hex encoded) and compare with crypto.timingSafeEqual on the
hex-decoded buffers.  Node's timingSafeEqual throws when the buffers have
different lengths, and that exception propagates out of verifySessionId. -/
def verifySessionId (sign : String → String) (sessionId signature : String) :
    Except JsError Bool :=
  timingSafeEqual (hexDecode signature) (hexDecode (sign sessionId))

/-- The data attached to req.session on a store hit. -/
structure SessionData where
  userId : String
  username : String
  role : String
deriving DecidableEq, Repr

/-- A value of the sessions Map: { data, expiresAt }. -/
structure SessionEntry where
  data : SessionData
  expiresAt : Nat
deriving DecidableEq, Repr

/-- The in-memory sessions Map, as an association list keyed by session id. -/
abbrev SessionStore := List (String × SessionEntry)

/-- sessions.get(k). -/
def storeGet (store : SessionStore) (k : String) : Option SessionEntry :=
  match store.find? (fun p => decide (p.1 = k)) with
  | some p => some p.2
  | none => none

/-- sessions.delete(k). -/
def storeDelete (store : SessionStore) (k : String) : SessionStore :=
  store.filter (fun p => decide (p.1 ≠ k))

/-- sessions.set(k, v): replace the entry under an existing key, otherwise
append a new one. -/
def storeSet (store : SessionStore) (k : String) (v : SessionEntry) : SessionStore :=
  if store.any (fun p => decide (p.1 = k)) then
    store.map (fun p => if p.1 = k then (k, v) else p)
  else store ++ [(k, v)]

/-- The hourly cleanup: delete every entry with expiresAt < now. -/
def sweepSessions (store : SessionStore) (now : Nat) : SessionStore :=
  store.filter (fun p => !(decide (p.2.expiresAt < now)))

/-! ## Session cookie middleware (router.use in src/routes/authRoutes.js) -/

/-- The literal scanned for by the regex /sessionId=([^;]+)/. -/
def cookieKey : List Char := "sessionId=".data

/-- The [^;]+ part of the cookie regex: longest run of non-semicolon
characters. -/
def takeUntilSemi : List Char → List Char
  | [] => []
  | c :: cs => if c = ';' then [] else c :: takeUntilSemi cs

/-- cookie.match(/sessionId=([^;]+)/): scan for the first position where
`sessionId=` is followed by at least one non-semicolon character and return
the captured group. -/
def matchSessionCookie : List Char → Option (List Char)
  | [] => none
  | c :: cs =>
    if hasPrefixChars cookieKey (c :: cs) then
      let v := takeUntilSemi ((c :: cs).drop cookieKey.length)
      if v.isEmpty then matchSessionCookie cs else some v
    else matchSessionCookie cs

/-- The request-scoped state the middleware leaves behind: req.session,
req.sessionId, and the (possibly mutated) session store. -/
structure MwResult where
  session : Option SessionData
  reqSessionId : Option String
  store : SessionStore
deriving DecidableEq, Repr

/-- The cookie-parsing middleware.  An exception escaping the middleware
(Express turns it into an error response) is modelled as `.error`. -/
def sessionMiddleware (sign : String → String) (store : SessionStore) (now : Nat)
    (cookieHeader : Option String) : Except JsError MwResult :=
  match cookieHeader with
  | none => .ok ⟨none, none, store⟩
  | some cookie =>
    match matchSessionCookie cookie.data with
    | none => .ok ⟨none, none, store⟩
    | some mval =>
      let parts := jsSplit '.' (String.mk mval)
      let sessionId := parts[0]?.getD ""
      let signature := parts[1]?.getD ""
      -- `sessionId && signature && verifySessionId(sessionId, signature)`:
      -- an undefined piece and the empty string are both falsy.
      if decide (sessionId ≠ "") && decide (signature ≠ "") then
        match verifySessionId sign sessionId signature with
        | .error e => .error e
        | .ok ok =>
          if ok then
            match storeGet store sessionId with
            | some session =>
              if decide (session.expiresAt > now) then
                .ok ⟨some session.data, some sessionId, store⟩
              else
                .ok ⟨none, none, storeDelete store sessionId⟩
            | none => .ok ⟨none, none, storeDelete store sessionId⟩
          else .ok ⟨none, none, store⟩
      else .ok ⟨none, none, store⟩

/-! ## Credential records (src/models/User.js) -/

/-- A stored credential record (the fields of the User schema that the
authentication code reads). -/
structure UserRec where
  id : String
  username : String
  password : String
  email : Option String
  role : String
  createdAt : Nat
deriving DecidableEq, Repr

/-- A credential record with the password hash stripped
(.select('-password') / sanitizeUser). -/
structure SanitizedUser where
  id : String
  username : String
  email : Option String
  role : String
  createdAt : Nat
deriving DecidableEq, Repr

/-- Drop the password field. -/
def sanitize (u : UserRec) : SanitizedUser :=
  ⟨u.id, u.username, u.email, u.role, u.createdAt⟩

/-- User.findOne({ username }). -/
def findUser (users : List UserRec) (username : String) : Option UserRec :=
  users.find? (fun u => decide (u.username = username))

/-! ## Credential hashing

`f256` and `f512` are the PBKDF2 digest primitives
p s => crypto.pbkdf2Sync(p, s, 10000, 64, 'sha256'/'sha512').toString('hex');
they are Node library code, abstracted as deterministic functions. -/

/-- User.hashPassword (and likewise the inline hashing in the register
route): a fresh random salt (the `salt` parameter, 16 random bytes hex
encoded in the source) joined to the derived hex digest as `salt:hash`. -/
def hashPassword (f : String → String → String) (salt password : String) : String :=
  salt ++ ":" ++ f password salt

/-- User.verifyPassword: split the stored value on ':', re-derive from the
embedded salt, and compare with JavaScript === (on a stored value with no
separator the hash piece is undefined and the comparison is false). -/
def verifyPassword (f256 : String → String → String)
    (password hashedPassword : String) : Bool :=
  let parts := jsSplit ':' hashedPassword
  let salt := parts[0]?.getD ""
  let hashCheck := f256 password salt
  match parts[1]? with
  | none => false
  | some h => decide (h = hashCheck)

/-- The inline verification in the login route: split on ':', derive with
PBKDF2-SHA512, and compare with crypto.timingSafeEqual on hex-decoded
buffers.  Buffer.from(undefined, 'hex') throws a TypeError when the stored
value has no ':' separator, and timingSafeEqual throws a RangeError when
the decoded buffers differ in length. -/
def loginVerify (f512 : String → String → String)
    (password stored : String) : Except JsError Bool :=
  let parts := jsSplit ':' stored
  let salt := parts[0]?.getD ""
  match parts[1]? with
  | none => .error .typeError
  | some storedHash =>
    let hash := f512 password salt
    timingSafeEqual (hexDecode hash) (hexDecode storedHash)

/-! ## Register validation (src/routes/authRoutes.js and User.validateUserData)

The three checks are textually identical in the route and in
User.validateUserData, so they are shared definitions. -/

/-- A character allowed by the [^\s@] class of the email regex. -/
def emailCharOk (c : Char) : Bool := !(isJsSpace c) && c ≠ '@'

/-- The test /^[^\s@]+@[^\s@]+\.[^\s@]+$/.test(email), characterised:
exactly one '@'; a nonempty local part of allowed characters; a domain of
allowed characters containing a '.' that is neither its first nor its last
character. -/
def emailFormatOk (email : String) : Bool :=
  match jsSplit '@' email with
  | [localPart, domain] =>
    !localPart.data.isEmpty && localPart.data.all emailCharOk &&
    domain.data.all emailCharOk &&
    ((domain.data.drop 1).dropLast.contains '.')
  | _ => false

/-- !username || username.trim().length < 3. -/
def usernameInvalid (u : Option String) : Bool :=
  !jsTruthy u || decide ((jsTrim (u.getD "")).length < 3)

/-- !password || password.length < 6. -/
def passwordInvalid (p : Option String) : Bool :=
  !jsTruthy p || decide ((p.getD "").length < 6)

/-- email && !emailRegex.test(email). -/
def emailInvalid (e : Option String) : Bool :=
  match e with
  | none => false
  | some s => decide (s ≠ "") && !emailFormatOk s

/-- User.validateUserData: collects every violated rule. -/
def validateUserData (username password email : Option String) : List String :=
  (if usernameInvalid username then
    ["Username must be at least 3 characters long"] else [])
  ++ (if passwordInvalid password then
    ["Password must be at least 6 characters long"] else [])
  ++ (if emailInvalid email then ["Invalid email format"] else [])

/-! ## Route handlers (src/routes/authRoutes.js) -/

/-- The Set-Cookie value minted on a successful register/login:
`${sessionId}.${signSessionId(sessionId)}`. -/
def mintCookie (sign : String → String) (sessionId : String) : String :=
  sessionId ++ "." ++ sign sessionId

/-- POST /register.  `salt`, `newSessionId` and `newUserId` stand for the
random values drawn inside the handler; the result is the response together
with the updated user collection, the session store, and the cookie set
(none when no session was minted). -/
def registerHandler (f512 : String → String → String) (sign : String → String)
    (users : List UserRec) (store : SessionStore) (now : Nat)
    (salt newSessionId newUserId : String)
    (username password email : Option String) :
    HttpResponse × List UserRec × SessionStore × Option String :=
  if usernameInvalid username then
    (jsonError 400 "Username must be at least 3 characters", users, store, none)
  else if passwordInvalid password then
    (jsonError 400 "Password must be at least 6 characters", users, store, none)
  else if emailInvalid email then
    (jsonError 400 "Invalid email format", users, store, none)
  else
    let uname := jsTrim (username.getD "")
    match findUser users uname with
    | some _ => (jsonError 400 "Username already exists", users, store, none)
    | none =>
      let hashedPassword := hashPassword f512 salt (password.getD "")
      -- the schema lowercases and trims the email on save
      let user : UserRec :=
        ⟨newUserId, uname, hashedPassword,
          email.map (fun e => jsLower (jsTrim e)), "user", now⟩
      let entry : SessionEntry := ⟨⟨newUserId, uname, "user"⟩, now + SESSION_MAX_AGE⟩
      (⟨201, none, some "User registered successfully",
          some (newUserId, uname, "user"), none⟩,
        users ++ [user], storeSet store newSessionId entry,
        some (mintCookie sign newSessionId))

/-- POST /login.  The try/catch around the handler maps any thrown
exception to a 500 "Login failed" response. -/
def loginHandler (f512 : String → String → String) (sign : String → String)
    (users : List UserRec) (store : SessionStore) (now : Nat)
    (newSessionId : String) (username password : Option String) :
    HttpResponse × SessionStore × Option String :=
  if !(jsTruthy username && jsTruthy password) then
    (jsonError 400 "Username and password are required", store, none)
  else
    match findUser users (jsTrim (username.getD "")) with
    | none => (jsonError 401 "Invalid credentials", store, none)
    | some user =>
      match loginVerify f512 (password.getD "") user.password with
      | .error _ => (jsonError 500 "Login failed", store, none)
      | .ok ok =>
        if !ok then (jsonError 401 "Invalid credentials", store, none)
        else
          let entry : SessionEntry :=
            ⟨⟨user.id, user.username, user.role⟩, now + SESSION_MAX_AGE⟩
          (⟨200, none, some "Login successful",
              some (user.id, user.username, user.role), none⟩,
            storeSet store newSessionId entry,
            some (mintCookie sign newSessionId))

/-- Newest-first order on sanitized records (.sort({ createdAt: -1 })). -/
def sanNewerFirst (a b : SanitizedUser) : Prop :=
  b.createdAt ≤ a.createdAt

instance : DecidableRel sanNewerFirst :=
  fun a b => inferInstanceAs (Decidable (b.createdAt ≤ a.createdAt))

instance : IsTotal SanitizedUser sanNewerFirst :=
  ⟨fun a b => Nat.le_total b.createdAt a.createdAt⟩

instance : IsTrans SanitizedUser sanNewerFirst :=
  ⟨fun _ _ _ hab hbc => Nat.le_trans hbc hab⟩

/-- The outcome of GET /users: an error response or the user list. -/
inductive UsersResponse where
  | err (status : Nat) (msg : String)
  | ok (users : List SanitizedUser)
deriving DecidableEq, Repr

/-- GET /users: inline admin check (403 whenever the session is absent or
not an admin), then User.find().select('-password').sort({ createdAt: -1 }). -/
def listUsersHandler (users : List UserRec) (session : Option SessionData) :
    UsersResponse :=
  match session with
  | none => .err 403 "Admin access required"
  | some s =>
    if s.role ≠ "admin" then .err 403 "Admin access required"
    else .ok (List.insertionSort sanNewerFirst (users.map sanitize))

/-! ## Authorization guards (src/middleware/auth.js) -/

/-- The outcome of a guard middleware: call next(), or respond. -/
inductive GuardOutcome where
  | allow
  | deny (resp : HttpResponse)
deriving DecidableEq, Repr

/-- requireAuth: req.session && req.session.userId, else 401 for /api/
paths and a redirect to /login otherwise. -/
def requireAuth (session : Option SessionData) (path : String) : GuardOutcome :=
  match session with
  | some s =>
    if s.userId ≠ "" then .allow
    else if pathStartsWithApi path then .deny (jsonError 401 "Authentication required")
    else .deny (redirectResp "/login")
  | none =>
    if pathStartsWithApi path then .deny (jsonError 401 "Authentication required")
    else .deny (redirectResp "/login")

/-- requireAdmin: the authentication check first (401-analog), then the
role check (403-analog). -/
def requireAdmin (session : Option SessionData) (path : String) : GuardOutcome :=
  match session with
  | none =>
    if pathStartsWithApi path then .deny (jsonError 401 "Authentication required")
    else .deny (redirectResp "/login")
  | some s =>
    if s.userId = "" then
      if pathStartsWithApi path then .deny (jsonError 401 "Authentication required")
      else .deny (redirectResp "/login")
    else if s.role ≠ "admin" then
      if pathStartsWithApi path then .deny (jsonError 403 "Admin access required")
      else .deny (plainResp 403 "Forbidden: Admin access required")
    else .allow

/-- The fields of a movie document that checkOwnership reads. -/
structure MovieRec where
  id : String
  createdBy : String
deriving DecidableEq, Repr

/-- The body of the middleware returned by checkOwnership(resourceType),
before its try/catch: reading req.session.role throws a TypeError when
req.session is null; `findResource` embeds Movie.findById, consulted only
for resourceType 'movie' (the only branch in the source). -/
def checkOwnershipRaw (resourceType : String)
    (findResource : String → Option MovieRec)
    (session : Option SessionData) (paramId : String) :
    Except JsError GuardOutcome :=
  match session with
  | none => .error .typeError
  | some s =>
    if s.role = "admin" then .ok .allow
    else
      let resource := if resourceType = "movie" then findResource paramId else none
      match resource with
      | none =>
        .ok (.deny (jsonError 404 (capitalizeFirst resourceType ++ " not found")))
      | some m =>
        if m.createdBy ≠ s.userId then
          .ok (.deny (jsonError 403
            ("Access denied: You can only modify your own " ++ resourceType ++ "s")))
        else .ok .allow

/-- checkOwnership(resourceType) with its catch branch: any exception
becomes a 500 "Internal server error" response. -/
def checkOwnership (resourceType : String)
    (findResource : String → Option MovieRec)
    (session : Option SessionData) (paramId : String) : GuardOutcome :=
  match checkOwnershipRaw resourceType findResource session paramId with
  | .ok o => o
  | .error _ => .deny (jsonError 500 "Internal server error")

/-! ## Helper lemmas -/

theorem strData_append (a b : String) : (a ++ b).data = a.data ++ b.data := by
  cases a; cases b; rfl

theorem strMk_data (s : String) : String.mk s.data = s := by
  cases s; rfl

theorem splitOnChar_ne_nil (sep : Char) (cs : List Char) : splitOnChar sep cs ≠ [] := by
  induction cs with
  | nil => simp [splitOnChar]
  | cons c rest ih =>
    simp only [splitOnChar]
    by_cases h : c = sep
    · simp [h]
    · simp only [h, if_false]
      cases hr : splitOnChar sep rest with
      | nil => simp
      | cons x xs => simp

theorem splitOnChar_not_mem (sep : Char) (cs : List Char) (h : sep ∉ cs) :
    splitOnChar sep cs = [cs] := by
  induction cs with
  | nil => rfl
  | cons c rest ih =>
    have hc : c ≠ sep := fun hcs => h (hcs ▸ List.mem_cons_self c rest)
    have hrest : sep ∉ rest := fun hm => h (List.mem_cons_of_mem c hm)
    simp [splitOnChar, hc, ih hrest]

theorem splitOnChar_append (sep : Char) (a b : List Char) (ha : sep ∉ a) :
    splitOnChar sep (a ++ sep :: b) = a :: splitOnChar sep b := by
  induction a with
  | nil => simp [splitOnChar]
  | cons c rest ih =>
    have hc : c ≠ sep := fun hcs => ha (hcs ▸ List.mem_cons_self c rest)
    have hrest : sep ∉ rest := fun hm => ha (List.mem_cons_of_mem c hm)
    simp only [List.cons_append, splitOnChar, hc, if_false, List.append_eq, ih hrest]

theorem jsSplit_pair (sep : Char) (a b : String)
    (ha : sep ∉ a.data) (hb : sep ∉ b.data) :
    jsSplit sep (a ++ String.mk [sep] ++ b) = [a, b] := by
  unfold jsSplit
  rw [strData_append, strData_append]
  have h1 : (String.mk [sep]).data = [sep] := rfl
  rw [h1, List.append_assoc, List.singleton_append]
  rw [splitOnChar_append sep a.data b.data ha, splitOnChar_not_mem sep b.data hb]
  simp [strMk_data]

theorem jsSplit_colon (a b : String) (ha : ':' ∉ a.data) (hb : ':' ∉ b.data) :
    jsSplit ':' (a ++ ":" ++ b) = [a, b] :=
  jsSplit_pair ':' a b ha hb

theorem takeUntilSemi_of_not_mem (cs : List Char) (h : ';' ∉ cs) :
    takeUntilSemi cs = cs := by
  induction cs with
  | nil => rfl
  | cons c rest ih =>
    have hc : c ≠ ';' := fun hcs => h (hcs ▸ List.mem_cons_self c rest)
    have hrest : ';' ∉ rest := fun hm => h (List.mem_cons_of_mem c hm)
    simp [takeUntilSemi, hc, ih hrest]

theorem hasPrefixChars_append (pat rest : List Char) :
    hasPrefixChars pat (pat ++ rest) = true := by
  induction pat with
  | nil => rfl
  | cons c cs ih => simp [hasPrefixChars, ih]

theorem drop_length_append (a b : List Char) : (a ++ b).drop a.length = b := by
  induction a with
  | nil => rfl
  | cons c cs ih => simp [ih]

theorem matchSessionCookie_of_value (v : List Char) (hne : v ≠ [])
    (hsemi : ';' ∉ v) : matchSessionCookie (cookieKey ++ v) = some v := by
  have h1 : matchSessionCookie (cookieKey ++ v)
      = if hasPrefixChars cookieKey (cookieKey ++ v) then
          (let w := takeUntilSemi ((cookieKey ++ v).drop cookieKey.length)
           if w.isEmpty then matchSessionCookie ("essionId=".data ++ v) else some w)
        else matchSessionCookie ("essionId=".data ++ v) := rfl
  rw [h1, if_pos (hasPrefixChars_append cookieKey v)]
  simp only [drop_length_append, takeUntilSemi_of_not_mem v hsemi]
  cases v with
  | nil => exact absurd rfl hne
  | cons c cs => simp [List.isEmpty]

theorem storeGet_storeDelete (store : SessionStore) (k : String) :
    storeGet (storeDelete store k) k = none := by
  induction store with
  | nil => rfl
  | cons a t ih =>
    by_cases h : a.1 = k
    · have hd : storeDelete (a :: t) k = storeDelete t k := by
        simp [storeDelete, List.filter_cons, h]
      rw [hd]; exact ih
    · have hd : storeDelete (a :: t) k = a :: storeDelete t k := by
        simp [storeDelete, List.filter_cons, h]
      rw [hd]
      unfold storeGet at ih ⊢
      rw [List.find?_cons_of_neg _ (by simp [h])]
      exact ih

theorem sweep_removes_expired (store : SessionStore) (now : Nat)
    (k : String) (e : SessionEntry) (h : e.expiresAt < now) :
    (k, e) ∉ sweepSessions store now := by
  intro hmem
  have := List.mem_filter.mp hmem
  simp [h] at this

/-! ## Concrete digest stand-ins and demo data

The PBKDF2 and HMAC primitives are library code; for concrete evaluations
they are instantiated with stand-ins that have the same output shape (hex
strings of the real digest length) and, where two different algorithms are
involved, produce different digests, as the real SHA-256/SHA-512 pair does
on these inputs. -/

/-- Stand-in for signSessionId: a 64-hex-character (32-byte) digest, the
shape of an HMAC-SHA256 hex digest. -/
def signStub : String → String := fun _ => String.mk (List.replicate 64 '0')

/-- Stand-in for the PBKDF2-SHA256 derivation of User.hashPassword:
128 hex characters, the 64-byte keylen of the source. -/
def pbkdf2Sha256Stub : String → String → String :=
  fun _ _ => String.mk (List.replicate 128 'a')

/-- Stand-in for the PBKDF2-SHA512 derivation of the register/login routes;
differs from the SHA-256 stand-in everywhere, as the real digests do. -/
def pbkdf2Sha512Stub : String → String → String :=
  fun _ _ => String.mk (List.replicate 128 'b')

/-- A 16-byte salt, hex encoded, as drawn by crypto.randomBytes(16). -/
def demoSalt : String := "00112233445566778899aabbccddeeff"

/-- A password-sensitive PBKDF2-SHA512 stand-in: distinguishes the correct
password from every other one, as the real derivation does. -/
def demoDigest : String → String → String := fun p _ =>
  if p = "secret1" then String.mk (List.replicate 128 'a')
  else String.mk (List.replicate 128 'c')

/-! ## Claims -/

/-- C1: the session-signature verifier is claimed never to throw, but with a
signature whose hex decoding is not the 32-byte HMAC-SHA256 digest length
(here "zz", which decodes to 0 bytes), crypto.timingSafeEqual throws a
RangeError, and the cookie middleware propagates the exception — Express
turns it into an error response instead of continuing with a null session.
The first conjunct checks the digest stand-in has the real 32-byte shape. -/
theorem c1_verifySessionId_throws :
    (∀ s, (hexDecode (signStub s)).length = 32)
    ∧ verifySessionId signStub "abc" "zz" = .error .rangeError
    ∧ sessionMiddleware signStub [] 0 (some "sessionId=abc.zz") = .error .rangeError :=
  ⟨fun _ => rfl, rfl, rfl⟩

/-- C2: verifying a password against the stored `salt:derivedHash` produced
by hashing that password succeeds, both through User.verifyPassword and
through the login route's inline verification; `f` is the PBKDF2 derivation
(deterministic given password and salt), and hex-encoded salts and digests
contain no ':' separator. -/
theorem c2_verify_of_hash_roundtrip (f : String → String → String) (salt p : String)
    (hsalt : ':' ∉ salt.data) (hd : ':' ∉ (f p salt).data) :
    verifyPassword f p (hashPassword f salt p) = true
    ∧ loginVerify f p (hashPassword f salt p) = .ok true := by
  have hs : jsSplit ':' (salt ++ ":" ++ f p salt) = [salt, f p salt] :=
    jsSplit_colon salt (f p salt) hsalt hd
  constructor
  · simp only [verifyPassword, hashPassword, hs]
    simp
  · simp only [loginVerify, hashPassword, hs]
    simp [timingSafeEqual]

/-- Witness for C2 at a concrete digest function, salt and password. -/
theorem c2_verify_of_hash_roundtrip_witness :
    verifyPassword pbkdf2Sha256Stub "pw1234" (hashPassword pbkdf2Sha256Stub demoSalt "pw1234") = true
    ∧ loginVerify pbkdf2Sha256Stub "pw1234" (hashPassword pbkdf2Sha256Stub demoSalt "pw1234") = .ok true :=
  c2_verify_of_hash_roundtrip pbkdf2Sha256Stub demoSalt "pw1234" (by decide) (by decide)

/-- The admin credential as created by scripts/create-admin.js: the password
'Admin123!' hashed with User.hashPassword, i.e. with the PBKDF2-SHA256
derivation. -/
def adminUser : UserRec :=
  ⟨"admin-id", "admin",
    hashPassword pbkdf2Sha256Stub demoSalt "Admin123!",
    some "admin@movielibrary.com", "admin", 0⟩

/-- C3: the two credential hashers are not equivalent.  User.hashPassword
derives with PBKDF2-SHA256 while the login route re-derives with
PBKDF2-SHA512, so (the digests differing, as the real SHA-256/SHA-512
derivations do) the login route rejects the admin credential created by the
create-admin script, and conversely User.verifyPassword rejects a hash
produced by the register route's inline SHA-512 hashing. -/
theorem c3_hashers_not_equivalent :
    loginVerify pbkdf2Sha512Stub "Admin123!" adminUser.password = .ok false
    ∧ (loginHandler pbkdf2Sha512Stub signStub [adminUser] [] 0 "sid0"
        (some "admin") (some "Admin123!")).1 = jsonError 401 "Invalid credentials"
    ∧ verifyPassword pbkdf2Sha256Stub "Admin123!"
        (hashPassword pbkdf2Sha512Stub demoSalt "Admin123!") = false :=
  ⟨rfl, rfl, rfl⟩

/-- C4 counterexample: a register request violating both the username rule
and the password rule is answered with the username message alone, while
User.validateUserData (unused by the route) collects both violations. -/
theorem c4_register_first_violation_only_cex :
    (registerHandler pbkdf2Sha512Stub signStub [] [] 0 demoSalt "sid0" "uid0"
        (some "ab") (some "123") none).1
      = jsonError 400 "Username must be at least 3 characters"
    ∧ validateUserData (some "ab") (some "123") none
      = ["Username must be at least 3 characters long",
         "Password must be at least 6 characters long"] :=
  ⟨rfl, rfl⟩

/-- C4 amended: the register route reports only the first violated rule in
source order — username, then password, then email — instead of listing all
violated rules. -/
theorem c4_register_reports_first_violation (f512 : String → String → String)
    (sign : String → String) (users : List UserRec) (store : SessionStore)
    (now : Nat) (salt sid uid : String) (username password email : Option String) :
    (usernameInvalid username = true →
      (registerHandler f512 sign users store now salt sid uid username password email).1
        = jsonError 400 "Username must be at least 3 characters")
    ∧ (usernameInvalid username = false → passwordInvalid password = true →
      (registerHandler f512 sign users store now salt sid uid username password email).1
        = jsonError 400 "Password must be at least 6 characters")
    ∧ (usernameInvalid username = false → passwordInvalid password = false →
       emailInvalid email = true →
      (registerHandler f512 sign users store now salt sid uid username password email).1
        = jsonError 400 "Invalid email format") := by
  refine ⟨fun h1 => ?_, fun h1 h2 => ?_, fun h1 h2 h3 => ?_⟩
  · simp [registerHandler, h1]
  · simp [registerHandler, h1, h2]
  · simp [registerHandler, h1, h2, h3]

/-- Witness for C4's amended statement on concrete inputs hitting each of
the three first-failure branches. -/
theorem c4_register_reports_first_violation_witness :
    (registerHandler pbkdf2Sha512Stub signStub [] [] 0 demoSalt "sid0" "uid0"
        (some "ab") (some "12345") (some "bad")).1
      = jsonError 400 "Username must be at least 3 characters"
    ∧ (registerHandler pbkdf2Sha512Stub signStub [] [] 0 demoSalt "sid0" "uid0"
        (some "abc") (some "123") (some "bad")).1
      = jsonError 400 "Password must be at least 6 characters"
    ∧ (registerHandler pbkdf2Sha512Stub signStub [] [] 0 demoSalt "sid0" "uid0"
        (some "abc") (some "123456") (some "bad")).1
      = jsonError 400 "Invalid email format" :=
  ⟨(c4_register_reports_first_violation pbkdf2Sha512Stub signStub [] [] 0 demoSalt
      "sid0" "uid0" (some "ab") (some "12345") (some "bad")).1 (by decide),
   (c4_register_reports_first_violation pbkdf2Sha512Stub signStub [] [] 0 demoSalt
      "sid0" "uid0" (some "abc") (some "123") (some "bad")).2.1 (by decide) (by decide),
   (c4_register_reports_first_violation pbkdf2Sha512Stub signStub [] [] 0 demoSalt
      "sid0" "uid0" (some "abc") (some "123456") (some "bad")).2.2 (by decide) (by decide)
      (by decide)⟩

/-- The login route's verification rejects (without throwing) a well-formed
stored hash whose derived digest differs from the one re-derived from the
candidate password, the two hex decodings having equal byte length. -/
theorem loginVerify_wrong_password (f512 : String → String → String)
    (p salt stored : String) (hsalt : ':' ∉ salt.data) (hstored : ':' ∉ stored.data)
    (hlen : (hexDecode (f512 p salt)).length = (hexDecode stored).length)
    (hne : hexDecode (f512 p salt) ≠ hexDecode stored) :
    loginVerify f512 p (salt ++ ":" ++ stored) = .ok false := by
  have hs := jsSplit_colon salt stored hsalt hstored
  simp only [loginVerify, hs]
  simp [timingSafeEqual, hlen, hne]

/-- C5: a login for an existing user with a wrong password and a login for
a username absent from the store produce the very same response — status
401 and body "Invalid credentials" — so the two failure causes are
indistinguishable to the client. -/
theorem c5_login_failures_indistinguishable
    (f512 : String → String → String) (sign : String → String)
    (users1 users2 : List UserRec) (store1 store2 : SessionStore)
    (now1 now2 : Nat) (sid1 sid2 : String)
    (u1 p1 u2 p2 : String) (user : UserRec) (salt stored : String)
    (hu1 : u1 ≠ "") (hp1 : p1 ≠ "") (hu2 : u2 ≠ "") (hp2 : p2 ≠ "")
    (hfind1 : findUser users1 (jsTrim u1) = some user)
    (hpwd : user.password = salt ++ ":" ++ stored)
    (hsalt : ':' ∉ salt.data) (hstored : ':' ∉ stored.data)
    (hlen : (hexDecode (f512 p1 salt)).length = (hexDecode stored).length)
    (hwrong : hexDecode (f512 p1 salt) ≠ hexDecode stored)
    (hfind2 : findUser users2 (jsTrim u2) = none) :
    (loginHandler f512 sign users1 store1 now1 sid1 (some u1) (some p1)).1
      = jsonError 401 "Invalid credentials"
    ∧ (loginHandler f512 sign users2 store2 now2 sid2 (some u2) (some p2)).1
      = jsonError 401 "Invalid credentials" := by
  have hv := loginVerify_wrong_password f512 p1 salt stored hsalt hstored hlen hwrong
  constructor
  · simp [loginHandler, jsTruthy, hu1, hp1, hfind1, hpwd, hv]
  · simp [loginHandler, jsTruthy, hu2, hp2, hfind2]

/-- The user 'alice' with the correctly stored hash of password 'secret1'. -/
def aliceUser : UserRec :=
  ⟨"alice-id", "alice", hashPassword demoDigest demoSalt "secret1", none, "user", 0⟩

/-- Witness for C5: wrong password for 'alice' versus the unknown user
'ghost'; both yield the identical 401 "Invalid credentials" response. -/
theorem c5_login_failures_indistinguishable_witness :
    (loginHandler demoDigest signStub [aliceUser] [] 0 "sid0"
        (some "alice") (some "wrong1")).1 = jsonError 401 "Invalid credentials"
    ∧ (loginHandler demoDigest signStub [] [] 0 "sid0"
        (some "ghost") (some "secret1")).1 = jsonError 401 "Invalid credentials" :=
  c5_login_failures_indistinguishable demoDigest signStub [aliceUser] [] [] [] 0 0
    "sid0" "sid0" "alice" "wrong1" "ghost" "secret1" aliceUser demoSalt
    (String.mk (List.replicate 128 'a'))
    (by decide) (by decide) (by decide) (by decide) rfl rfl
    (by decide) (by decide) (by decide) (by decide) rfl

/-- A credential record whose stored hash has no ':' separator. -/
def corruptUser1 : UserRec := ⟨"u1", "mallory", "deadbeef", none, "user", 0⟩

/-- A credential record whose derived-hash field is not valid hex (its hex
decoding is empty, shorter than any real digest). -/
def corruptUser2 : UserRec := ⟨"u2", "trudy", "abcd:zz", none, "user", 0⟩

/-- C6 counterexample: a login against a malformed stored hash (missing ':'
separator, or a derived-hash field of the wrong decoded length) makes the
login route throw, and the client receives 500 "Login failed" — a response
distinct from the uniform 401 "Invalid credentials" failure — while
User.verifyPassword (unused by the route) returns false without throwing. -/
theorem c6_login_corrupt_hash_cex :
    (loginHandler demoDigest signStub [corruptUser1] [] 0 "sid0"
        (some "mallory") (some "secret1")).1 = jsonError 500 "Login failed"
    ∧ (loginHandler demoDigest signStub [corruptUser2] [] 0 "sid0"
        (some "trudy") (some "secret1")).1 = jsonError 500 "Login failed"
    ∧ jsonError 500 "Login failed" ≠ jsonError 401 "Invalid credentials"
    ∧ verifyPassword demoDigest "secret1" "deadbeef" = false :=
  ⟨rfl, rfl, by decide, rfl⟩

/-- C6 amended: for a stored hash with no ':' separator, or one whose
derived-hash field hex-decodes to a length different from the re-derived
digest, the login route's inline verification throws and the client
receives a distinct 500 "Login failed" response (not the uniform 401);
User.verifyPassword does return false without throwing on the
missing-separator shape. -/
theorem c6_login_corrupt_hash_amended (f512 : String → String → String)
    (sign : String → String) (users : List UserRec) (store : SessionStore)
    (now : Nat) (sid : String) (uname pwd : String) (user : UserRec)
    (hu : uname ≠ "") (hp : pwd ≠ "")
    (hfind : findUser users (jsTrim uname) = some user)
    (hmal : (jsSplit ':' user.password)[1]? = none ∨
      ∃ stored, (jsSplit ':' user.password)[1]? = some stored ∧
        (hexDecode (f512 pwd ((jsSplit ':' user.password)[0]?.getD ""))).length
          ≠ (hexDecode stored).length) :
    (loginHandler f512 sign users store now sid (some uname) (some pwd)).1
      = jsonError 500 "Login failed"
    ∧ ((jsSplit ':' user.password)[1]? = none →
        verifyPassword f512 pwd user.password = false) := by
  have hlv : ∃ e, loginVerify f512 pwd user.password = .error e := by
    rcases hmal with h | ⟨stored, hsome, hlen⟩
    · exact ⟨.typeError, by simp [loginVerify, h]⟩
    · exact ⟨.rangeError, by simp [loginVerify, hsome, timingSafeEqual, hlen]⟩
  obtain ⟨e, he⟩ := hlv
  constructor
  · simp [loginHandler, jsTruthy, hu, hp, hfind, he]
  · intro h
    simp [verifyPassword, h]

/-- Witness for C6's amended statement at the missing-separator record. -/
theorem c6_login_corrupt_hash_amended_witness :
    (loginHandler demoDigest signStub [corruptUser1] [] 0 "sid1"
        (some "mallory") (some "pw2")).1 = jsonError 500 "Login failed"
    ∧ verifyPassword demoDigest "pw2" corruptUser1.password = false :=
  have h := c6_login_corrupt_hash_amended demoDigest signStub [corruptUser1] [] 0 "sid1"
    "mallory" "pw2" corruptUser1 (by decide) (by decide) rfl (Or.inl (by decide))
  ⟨h.1, h.2 (by decide)⟩

/-- C7: a store entry whose expiresAt has passed is treated as absent by the
middleware — the request continues with a null session — and is lazily
deleted from the store; and every expired entry is removed by the sweep, so
it is gone within one sweep interval.  The cookie carries the entry's id
with a signature that verifies. -/
theorem c7_session_expiry_behavior (sign : String → String) (store : SessionStore)
    (now : Nat) (sid sig : String) (entry : SessionEntry)
    (hsid : sid ≠ "") (hsig : sig ≠ "")
    (hsidDot : '.' ∉ sid.data) (hsigDot : '.' ∉ sig.data)
    (hsidSemi : ';' ∉ sid.data) (hsigSemi : ';' ∉ sig.data)
    (hver : verifySessionId sign sid sig = .ok true)
    (hget : storeGet store sid = some entry)
    (hexp : entry.expiresAt < now) :
    sessionMiddleware sign store now (some ("sessionId=" ++ sid ++ "." ++ sig))
      = .ok ⟨none, none, storeDelete store sid⟩
    ∧ storeGet (storeDelete store sid) sid = none
    ∧ (∀ k e₂, e₂.expiresAt < now → (k, e₂) ∉ sweepSessions store now) := by
  refine ⟨?_, storeGet_storeDelete store sid,
    fun k e₂ he => sweep_removes_expired store now k e₂ he⟩
  have hdot : (("." : String)).data = ['.'] := rfl
  have hdata : ("sessionId=" ++ sid ++ "." ++ sig).data
      = cookieKey ++ (sid.data ++ '.' :: sig.data) := by
    rw [strData_append, strData_append, strData_append, hdot]
    simp [cookieKey, List.append_assoc]
  have hmatch : matchSessionCookie ("sessionId=" ++ sid ++ "." ++ sig).data
      = some (sid.data ++ '.' :: sig.data) := by
    rw [hdata]
    apply matchSessionCookie_of_value
    · intro hnil
      exact List.cons_ne_nil _ _ (List.append_eq_nil.mp hnil).2
    · intro hmem
      rcases List.mem_append.mp hmem with h | h
      · exact hsidSemi h
      · rcases List.mem_cons.mp h with h | h
        · exact absurd h (by decide)
        · exact hsigSemi h
  have hsplit : splitOnChar '.' (sid.data ++ '.' :: sig.data) = [sid.data, sig.data] := by
    rw [splitOnChar_append '.' sid.data sig.data hsidDot,
        splitOnChar_not_mem '.' sig.data hsigDot]
  have hparts : jsSplit '.' (String.mk (sid.data ++ '.' :: sig.data)) = [sid, sig] := by
    unfold jsSplit
    have h0 : (String.mk (sid.data ++ '.' :: sig.data)).data
        = sid.data ++ '.' :: sig.data := rfl
    rw [h0, hsplit]
    simp [strMk_data]
  have hnot : ¬ (entry.expiresAt > now) := by omega
  simp only [sessionMiddleware, hmatch, hparts]
  simp [hsid, hsig, hver, hget, hnot]

/-- An expired session entry used in the C7 witness. -/
def demoSessionEntry : SessionEntry := ⟨⟨"alice-id", "alice", "user"⟩, 5⟩

/-- A store holding only the expired entry under id "abc". -/
def demoStore : SessionStore := [("abc", demoSessionEntry)]

/-- The signature matching the digest stand-in. -/
def demoSig : String := String.mk (List.replicate 64 '0')

/-- Witness for C7 at the concrete expired entry (expiresAt 5, now 100). -/
theorem c7_session_expiry_behavior_witness :
    sessionMiddleware signStub demoStore 100 (some ("sessionId=" ++ "abc" ++ "." ++ demoSig))
      = .ok ⟨none, none, storeDelete demoStore "abc"⟩
    ∧ storeGet (storeDelete demoStore "abc") "abc" = none
    ∧ ("abc", demoSessionEntry) ∉ sweepSessions demoStore 100 :=
  have h := c7_session_expiry_behavior signStub demoStore 100 "abc" demoSig demoSessionEntry
    (by decide) (by decide) (by decide) (by decide) (by decide) (by decide) rfl rfl (by decide)
  ⟨h.1, h.2.1, h.2.2 "abc" demoSessionEntry (by decide)⟩

/-- C8: checkOwnership('movie') on an authenticated session: an admin is
allowed unconditionally; otherwise a missing resource yields 404 "Movie not
found"; a resource created by someone else yields the 403 access-denied
response; and the creator is allowed. -/
theorem c8_checkOwnership_cases (findResource : String → Option MovieRec)
    (s : SessionData) (rid : String) :
    (s.role = "admin" → checkOwnership "movie" findResource (some s) rid = .allow)
    ∧ (s.role ≠ "admin" → findResource rid = none →
        checkOwnership "movie" findResource (some s) rid
          = .deny (jsonError 404 "Movie not found"))
    ∧ (∀ m, s.role ≠ "admin" → findResource rid = some m → m.createdBy ≠ s.userId →
        checkOwnership "movie" findResource (some s) rid
          = .deny (jsonError 403 "Access denied: You can only modify your own movies"))
    ∧ (∀ m, s.role ≠ "admin" → findResource rid = some m → m.createdBy = s.userId →
        checkOwnership "movie" findResource (some s) rid = .allow) := by
  have hcap : capitalizeFirst "movie" ++ " not found" = "Movie not found" := rfl
  have hmsg : "Access denied: You can only modify your own " ++ "movie" ++ "s"
      = "Access denied: You can only modify your own movies" := rfl
  refine ⟨fun h => ?_, fun h hf => ?_, fun m h hf hc => ?_, fun m h hf hc => ?_⟩
  · simp [checkOwnership, checkOwnershipRaw, h]
  · simp [checkOwnership, checkOwnershipRaw, h, hf, hcap]
  · simp [checkOwnership, checkOwnershipRaw, h, hf, hc, hmsg]
  · simp [checkOwnership, checkOwnershipRaw, h, hf, hc]

/-- The movie store consulted by the ownership guard in the witnesses:
one movie, created by "alice-id". -/
def demoMovies : List MovieRec := [⟨"m1", "alice-id"⟩]

/-- Movie.findById over the demo collection. -/
def demoFindMovie (id : String) : Option MovieRec :=
  demoMovies.find? (fun m => decide (m.id = id))

/-- Witness for C8: all four cases at concrete sessions and movie ids. -/
theorem c8_checkOwnership_cases_witness :
    checkOwnership "movie" demoFindMovie (some ⟨"bob-id", "bob", "admin"⟩) "m9" = .allow
    ∧ checkOwnership "movie" demoFindMovie (some ⟨"bob-id", "bob", "user"⟩) "m9"
        = .deny (jsonError 404 "Movie not found")
    ∧ checkOwnership "movie" demoFindMovie (some ⟨"bob-id", "bob", "user"⟩) "m1"
        = .deny (jsonError 403 "Access denied: You can only modify your own movies")
    ∧ checkOwnership "movie" demoFindMovie (some ⟨"alice-id", "alice", "user"⟩) "m1" = .allow :=
  ⟨(c8_checkOwnership_cases demoFindMovie ⟨"bob-id", "bob", "admin"⟩ "m9").1 rfl,
   (c8_checkOwnership_cases demoFindMovie ⟨"bob-id", "bob", "user"⟩ "m9").2.1 (by decide) rfl,
   (c8_checkOwnership_cases demoFindMovie ⟨"bob-id", "bob", "user"⟩ "m1").2.2.1
      ⟨"m1", "alice-id"⟩ (by decide) rfl (by decide),
   (c8_checkOwnership_cases demoFindMovie ⟨"alice-id", "alice", "user"⟩ "m1").2.2.2
      ⟨"m1", "alice-id"⟩ (by decide) rfl rfl⟩

/-- Two demo credential records with distinct creation times. -/
def demoUserA : UserRec := ⟨"ua", "ann", "s:h1", none, "user", 10⟩

/-- The second demo credential record, created later than the first. -/
def demoUserB : UserRec := ⟨"ub", "bob", "s:h2", none, "user", 20⟩

/-- The demo credential collection. -/
def demoUsers : List UserRec := [demoUserA, demoUserB]

/-- An admin session for the demo data. -/
def demoAdminSession : SessionData := ⟨"ua", "ann", "admin"⟩

/-- A non-admin session for the demo data. -/
def demoUserSession : SessionData := ⟨"ub", "bob", "user"⟩

/-- C9 counterexample: a caller with no session at all receives 403 "Admin
access required" from GET /users — not the 401 Unauthenticated that the
requireAdmin discipline (shown in the third conjunct) would give first. -/
theorem c9_listUsers_unauthenticated_cex :
    listUsersHandler demoUsers none = .err 403 "Admin access required"
    ∧ listUsersHandler demoUsers none ≠ .err 401 "Authentication required"
    ∧ requireAdmin none "/api/auth/users" = .deny (jsonError 401 "Authentication required") :=
  ⟨rfl, by decide, rfl⟩

/-- C9 amended: GET /users is gated by an inline check that answers 403
"Admin access required" both to unauthenticated callers and to
authenticated non-admins (it does not apply the requireAdmin 401-then-403
discipline); for an admin it returns every credential record with the
password stripped, sorted newest-first by createdAt. -/
theorem c9_listUsers_behavior (users : List UserRec) (s : SessionData) :
    listUsersHandler users none = .err 403 "Admin access required"
    ∧ (s.role ≠ "admin" → listUsersHandler users (some s) = .err 403 "Admin access required")
    ∧ (s.role = "admin" →
        listUsersHandler users (some s)
          = .ok (List.insertionSort sanNewerFirst (users.map sanitize))
        ∧ (List.insertionSort sanNewerFirst (users.map sanitize)).Sorted sanNewerFirst
        ∧ (List.insertionSort sanNewerFirst (users.map sanitize)).Perm (users.map sanitize)) := by
  refine ⟨rfl, fun h => by simp [listUsersHandler, h], fun h => ?_⟩
  exact ⟨by simp [listUsersHandler, h],
    List.sorted_insertionSort sanNewerFirst (users.map sanitize),
    List.perm_insertionSort sanNewerFirst (users.map sanitize)⟩

/-- Witness for C9's amended statement on the demo data. -/
theorem c9_listUsers_behavior_witness :
    listUsersHandler demoUsers none = .err 403 "Admin access required"
    ∧ listUsersHandler demoUsers (some demoUserSession) = .err 403 "Admin access required"
    ∧ (listUsersHandler demoUsers (some demoAdminSession)
        = .ok (List.insertionSort sanNewerFirst (demoUsers.map sanitize))
       ∧ (List.insertionSort sanNewerFirst (demoUsers.map sanitize)).Sorted sanNewerFirst
       ∧ (List.insertionSort sanNewerFirst (demoUsers.map sanitize)).Perm (demoUsers.map sanitize)) :=
  ⟨(c9_listUsers_behavior demoUsers demoUserSession).1,
   (c9_listUsers_behavior demoUsers demoUserSession).2.1 (by decide),
   (c9_listUsers_behavior demoUsers demoAdminSession).2.2 rfl⟩

/-- C10: checkOwnership dereferences req.session without a null check: with
a null session the body throws a TypeError and the catch branch answers 500
"Internal server error" (not the 401 Unauthenticated that requireAuth gives,
shown last); with any non-null session the body never throws. -/
theorem c10_checkOwnership_null_session (findResource : String → Option MovieRec)
    (rid : String) :
    checkOwnershipRaw "movie" findResource none rid = .error .typeError
    ∧ checkOwnership "movie" findResource none rid
        = .deny (jsonError 500 "Internal server error")
    ∧ checkOwnership "movie" findResource none rid
        ≠ .deny (jsonError 401 "Authentication required")
    ∧ (∀ s : SessionData, ∃ o, checkOwnershipRaw "movie" findResource (some s) rid = .ok o)
    ∧ requireAuth none "/api/movies/abc" = .deny (jsonError 401 "Authentication required") := by
  refine ⟨rfl, rfl, by simp [checkOwnership, checkOwnershipRaw, jsonError], ?_, rfl⟩
  intro s
  by_cases hr : s.role = "admin"
  · exact ⟨.allow, by simp [checkOwnershipRaw, hr]⟩
  · cases hf : findResource rid with
    | none =>
      exact ⟨.deny (jsonError 404 (capitalizeFirst "movie" ++ " not found")),
        by simp [checkOwnershipRaw, hr, hf]⟩
    | some m =>
      by_cases hc : m.createdBy = s.userId
      · exact ⟨.allow, by simp [checkOwnershipRaw, hr, hf, hc]⟩
      · exact ⟨.deny (jsonError 403
            ("Access denied: You can only modify your own " ++ "movie" ++ "s")),
          by simp [checkOwnershipRaw, hr, hf, hc]⟩

/-- Witness for C10 on the demo movie store. -/
theorem c10_checkOwnership_null_session_witness :
    checkOwnership "movie" demoFindMovie none "m1"
      = .deny (jsonError 500 "Internal server error")
    ∧ (∃ o, checkOwnershipRaw "movie" demoFindMovie (some demoUserSession) "m1" = .ok o) :=
  ⟨(c10_checkOwnership_null_session demoFindMovie "m1").2.1,
   (c10_checkOwnership_null_session demoFindMovie "m1").2.2.2.1 demoUserSession⟩

end MovieLib
